import Mathlib

/-!
# Verification of the LeMond Revolution CSV → TCX converter

Shallow embedding of `lemondcsv.py` (classic variant, Python 2 semantics)
and `lemondcsv_gt.py` (GT variant, Python 3 semantics).  Python floats are
modelled as exact rationals (`ℚ`), Python ints as `ℤ`.  Python 2 integer
division (`/` on ints, which floors) is `Int.fdiv`; Python 3 true division
is `ℚ` division.  Fallible code returns `Except Err`.  The ambient
`time.strptime`/`time.mktime` composite used for the device-header start
time depends on process-local state (current year, local timezone); it is
modelled as an explicit collaborator parameter `mk` of type
`String → String → Option Int`.
-/

namespace Lemond

deriving instance DecidableEq for Except

/-- Error kinds raised by the converter (each corresponds to a Python
`Exception`/`ValueError`/`IndexError`/`StopIteration` raise site). -/
inductive Err where
  /-- `Exception("Expected %d cols, got %d")` -/
  | colCount (expected got : Nat)
  /-- `Exception("Not a LeMond Revolution CSV workout file")` -/
  | badIdentity
  /-- `Exception("Expected %s, got %s")` in `parseInt` (tag mismatch) -/
  | tagMismatch (expected got : String)
  /-- `Exception("Firmware string format unexpected %s")` (GT variant) -/
  | fwFormatGT (got : String)
  /-- `Exception("Power Pilot Firmware %d is not supported...")`,
      carrying the supported whitelist echoed in the message (classic) -/
  | firmware (supported : List Int) (got : Int)
  /-- same, GT variant (firmware versions are strings there) -/
  | firmwareGT (supported : List String) (got : String)
  /-- `Exception("Unexpected Header %s != %s")`, carrying the expected and
      actual column lists echoed in the message -/
  | hdrMismatch (expected got : List String)
  /-- Python `ValueError` from `int()` / `float()` / `time.strptime` -/
  | valueError
  /-- Python `IndexError` from indexing a too-short list -/
  | indexError
  /-- Python `StopIteration` from `rdr.next()` on an exhausted reader -/
  | stopIteration
deriving DecidableEq

/-- One decoded data point (`class Point`, `__init__`). -/
structure Point where
  secs : Nat
  speed : ℚ
  dist : ℚ
  power : ℤ
  heart : ℤ
  cadence : ℤ
  calories : ℤ
  torque : ℤ
  target : String
deriving DecidableEq

/-- Numeric value of a decimal digit character. -/
def digitVal (c : Char) : Nat := c.toNat - 48

/-- Value of a big-endian string of decimal digits. -/
def natOfDigits (cs : List Char) : Nat :=
  cs.foldl (fun a c => a * 10 + digitVal c) 0

/-- Strip leading and trailing whitespace from a character list
(Python `str.strip()` with no argument). -/
def trimChars (cs : List Char) : List Char :=
  ((cs.dropWhile Char.isWhitespace).reverse.dropWhile Char.isWhitespace).reverse

/-- Python `str.strip()`. -/
def pystrip (s : String) : String := String.mk (trimChars s.data)

/-- Python `str.split(sep)` with a one-character separator: split at every
occurrence, preserving empty pieces. -/
def splitOnChar (sep : Char) : List Char → List (List Char)
  | [] => [[]]
  | c :: cs =>
    let r := splitOnChar sep cs
    if c = sep then [] :: r
    else
      match r with
      | [] => [[c]]
      | h :: t => (c :: h) :: t

/-- Does `cs` start with the literal prefix `pre`? -/
def startsWithChars : List Char → List Char → Bool
  | [], _ => true
  | _, [] => false
  | p :: ps, c :: cs => p = c && startsWithChars ps cs

/-- A run of decimal digits after an optional sign, as accepted by Python
`int()` (underscore separators are not modelled). -/
def parseIntStr (s : String) : Option Int :=
  match trimChars s.data with
  | '+' :: ds =>
      if ds ≠ [] ∧ ds.all Char.isDigit then some (natOfDigits ds) else none
  | '-' :: ds =>
      if ds ≠ [] ∧ ds.all Char.isDigit then some (-(natOfDigits ds : Int)) else none
  | ds =>
      if ds ≠ [] ∧ ds.all Char.isDigit then some ((natOfDigits ds : Int)) else none

/-- Exponent part of a float literal: optional sign then digits,
consuming the whole remaining input. -/
def parseExpPart (cs : List Char) : Option Int :=
  match cs with
  | '+' :: ds =>
      if ds ≠ [] ∧ ds.all Char.isDigit then some (natOfDigits ds) else none
  | '-' :: ds =>
      if ds ≠ [] ∧ ds.all Char.isDigit then some (-(natOfDigits ds : Int)) else none
  | ds =>
      if ds ≠ [] ∧ ds.all Char.isDigit then some ((natOfDigits ds : Int)) else none

/-- Mantissa of a float literal: `digits [. digits]` or `. digits`,
returning its exact rational value and the unconsumed rest. -/
def parseMantissa (cs : List Char) : Option (ℚ × List Char) :=
  let ip := cs.takeWhile Char.isDigit
  let rest := cs.dropWhile Char.isDigit
  match rest with
  | '.' :: rest2 =>
      let fp := rest2.takeWhile Char.isDigit
      let rest3 := rest2.dropWhile Char.isDigit
      if ip = [] ∧ fp = [] then none
      else some ((natOfDigits ip : ℚ) + (natOfDigits fp : ℚ) / (10 : ℚ) ^ fp.length, rest3)
  | _ => if ip = [] then none else some ((natOfDigits ip : ℚ), rest)

/-- Unsigned float literal with optional `e`/`E` exponent. -/
def parseUnsignedFloat (cs : List Char) : Option ℚ := do
  let (m, rest) ← parseMantissa cs
  match rest with
  | [] => some m
  | 'e' :: es => (parseExpPart es).map (fun e => m * (10 : ℚ) ^ e)
  | 'E' :: es => (parseExpPart es).map (fun e => m * (10 : ℚ) ^ e)
  | _ => none

/-- Python `float()` on a finite decimal literal, as exact rational
(non-finite literals such as `inf`/`nan` are outside the `ℚ` model and
never occur in workout files). -/
def parseFloat (s : String) : Option ℚ :=
  match trimChars s.data with
  | '+' :: cs => parseUnsignedFloat cs
  | '-' :: cs => (parseUnsignedFloat cs).map Neg.neg
  | cs => parseUnsignedFloat cs

/-- Read one or two decimal digits, greedily, as `time.strptime` does for
the numeric directives `%H`/`%M`/`%S`. -/
def read2 (cs : List Char) : Option (Nat × List Char) :=
  match cs with
  | c1 :: c2 :: rest =>
      if c1.isDigit then
        if c2.isDigit then some (10 * digitVal c1 + digitVal c2, rest)
        else some (digitVal c1, c2 :: rest)
      else none
  | [c1] => if c1.isDigit then some (digitVal c1, []) else none
  | [] => none

/-- `Point.timeToSecs`: `time.strptime(tstr, "%H:%M:%S")` followed by
`3600*tm_hour + 60*tm_min + tm_sec`.  strptime bounds: hour 0..23,
minute 0..59, second 0..61. -/
def timeToSecs (tstr : String) : Option Nat :=
  match read2 tstr.data with
  | none => none
  | some (h, rest) =>
    match rest with
    | ':' :: rest1 =>
      match read2 rest1 with
      | none => none
      | some (m, rest2) =>
        match rest2 with
        | ':' :: rest3 =>
          match read2 rest3 with
          | none => none
          | some (s, rest4) =>
              if rest4 = [] ∧ h ≤ 23 ∧ m ≤ 59 ∧ s ≤ 61 then
                some (3600 * h + 60 * m + s)
              else none
        | _ => none
    | _ => none

/-- Python list indexing `row[i]` for `i ≥ 0`: `IndexError` when out of
range. -/
def idx (row : List String) (i : Nat) : Except Err String :=
  match row[i]? with
  | some s => .ok s
  | none => .error .indexError

/-- Lift an optional parse result, `ValueError` on failure. -/
def orValueError {α : Type} (o : Option α) : Except Err α :=
  match o with
  | some a => .ok a
  | none => .error .valueError

/-- `Point.__init__(csvrow)`: decode the nine fields in source order.
There is no field-count check; each field is indexed then converted,
exactly as the Python assignments do. -/
def pointOfRow (row : List String) : Except Err Point := do
  let f0 ← idx row 0
  let secs ← orValueError (timeToSecs f0)
  let f1 ← idx row 1
  let speed ← orValueError (parseFloat f1)
  let f2 ← idx row 2
  let dist ← orValueError (parseFloat f2)
  let f3 ← idx row 3
  let power ← orValueError (parseIntStr f3)
  let f4 ← idx row 4
  let heart ← orValueError (parseIntStr f4)
  let f5 ← idx row 5
  let cadence ← orValueError (parseIntStr f5)
  let f6 ← idx row 6
  let calories ← orValueError (parseIntStr f6)
  let f7 ← idx row 7
  let torque ← orValueError (parseIntStr f7)
  let f8 ← idx row 8
  pure { secs := secs, speed := speed, dist := dist, power := power,
         heart := heart, cadence := cadence, calories := calories,
         torque := torque, target := f8 }

/-- Expected point-schema header of the classic variant
(`Point.parsePointHdr` in `lemondcsv.py`). -/
def expectedPointHdr : List String :=
  ["TIME", "SPEED", "DIST", "POWER", "HEART RATE", "CADENCE", "CALORIES",
   "TORQUE", "TARGET"]

/-- Expected point-schema header of the GT variant
(`Point.parsePointHdr` in `lemondcsv_gt.py`). -/
def expectedPointHdrGT : List String :=
  ["secs", "SPEED", "DIST", "POWER", "heart", "cadence", "CALORIES",
   "TORQUE", "target"]

/-- `Point.parsePointHdr` generic body: exact count check, then exact
positional comparison with the expected list. -/
def parsePointHdrWith (exp row : List String) : Except Err Unit :=
  if row.length ≠ 9 then .error (.colCount 9 row.length)
  else if exp ≠ row then .error (.hdrMismatch exp row)
  else .ok ()

/-- `Point.parsePointHdr` (classic variant). -/
def parsePointHdr (row : List String) : Except Err Unit :=
  parsePointHdrWith expectedPointHdr row

/-- `Point.parsePointHdr` (GT variant). -/
def parsePointHdrGT (row : List String) : Except Err Unit :=
  parsePointHdrWith expectedPointHdrGT row

/-- The mutable accumulator fields initialised in `Revolution.__init__`. -/
structure Stats where
  maxSpeed : ℚ
  maxHeart : ℤ
  maxCadence : ℤ
  maxWatts : ℤ
  ttlSpeed : ℚ
  ttlHeart : ℤ
  ttlCadence : ℤ
  ttlWatts : ℤ
  ttlDist : ℚ
deriving DecidableEq

/-- All accumulators start at `0` (`Revolution.__init__`). -/
def initStats : Stats :=
  { maxSpeed := 0, maxHeart := 0, maxCadence := 0, maxWatts := 0,
    ttlSpeed := 0, ttlHeart := 0, ttlCadence := 0, ttlWatts := 0,
    ttlDist := 0 }

/-- `Revolution.metersPerSec`: km/h → m/s. -/
def metersPerSec (speed : ℚ) : ℚ := speed / 3.6

/-- `Revolution.collectStats`: add to the four running sums and update the
four running maxima (strict-greater test, as in the source). -/
def collectStats (st : Stats) (p : Point) : Stats :=
  { st with
    ttlSpeed := st.ttlSpeed + p.speed
    ttlHeart := st.ttlHeart + p.heart
    ttlCadence := st.ttlCadence + p.cadence
    ttlWatts := st.ttlWatts + p.power
    maxSpeed := if p.speed > st.maxSpeed then p.speed else st.maxSpeed
    maxHeart := if p.heart > st.maxHeart then p.heart else st.maxHeart
    maxCadence := if p.cadence > st.maxCadence then p.cadence else st.maxCadence
    maxWatts := if p.power > st.maxWatts then p.power else st.maxWatts }

/-- `Revolution.fixDistance`: integrate speed into `ttlDist` (meters) and
overwrite the point's vendor distance with `ttlDist / 1000` (km).
Identical in both source variants. -/
def fixDistance (st : Stats) (p : Point) : Stats × Point :=
  let mps := metersPerSec p.speed
  let ttl := st.ttlDist + mps
  ({ st with ttlDist := ttl }, { p with dist := ttl / 1000 })

/-- The per-row loop body of `Revolution.readCSV`: decode the row, collect
stats, fix the distance, and keep the (mutated) point.  Returns the final
point list and accumulator state. -/
def processRows : List (List String) → Stats → Except Err (List Point × Stats)
  | [], st => .ok ([], st)
  | r :: rs, st =>
    match pointOfRow r with
    | .error e => .error e
    | .ok p =>
      let st1 := collectStats st p
      let res := fixDistance st1 p
      match processRows rs res.1 with
      | .error e => .error e
      | .ok (ps, stf) => .ok (res.2 :: ps, stf)

/-- Zero-pad a natural below 100 to two digits (`strftime` field). -/
def pad2 (n : Nat) : String :=
  if n < 10 then "0" ++ toString n else toString n

/-- `Revolution.isoTimestamp`: `time.gmtime(seconds)` then
`strftime("%Y-%m-%dT%H:%M:%S.000Z")`.  The proleptic-Gregorian civil date
is computed from the epoch day count by the standard era-based algorithm,
matching the C library conversion that `gmtime` performs. -/
def isoTimestamp (seconds : Int) : String :=
  let days := Int.fdiv seconds 86400
  let sod := (Int.emod seconds 86400).toNat
  let z := days + 719468
  let era := Int.fdiv z 146097
  let doe := (z - era * 146097).toNat
  let yoe := (doe - doe / 1460 + doe / 36524 - doe / 146096) / 365
  let y : Int := (yoe : Int) + era * 400
  let doy := doe - (365 * yoe + yoe / 4 - yoe / 100)
  let mp := (5 * doy + 2) / 153
  let d := doy - (153 * mp + 2) / 5 + 1
  let m := if mp < 10 then mp + 3 else mp - 9
  let y2 := if m ≤ 2 then y + 1 else y
  toString y2 ++ "-" ++ pad2 m ++ "-" ++ pad2 d ++ "T" ++
    pad2 (sod / 3600) ++ ":" ++ pad2 (sod % 3600 / 60) ++ ":" ++
    pad2 (sod % 60) ++ ".000Z"

/-- One emitted `Trackpoint` element (`Point.trackpointElement`). -/
structure Trackpoint where
  time : String
  distanceMeters : ℚ
  heartRateBpm : ℤ
  cadence : ℤ
  speedMps : ℚ
  watts : ℤ
deriving DecidableEq

/-- `Point.trackpointElement(start)`: instantaneous values of one sample.
Identical in both source variants. -/
def trackpointElement (start : Int) (p : Point) : Trackpoint :=
  { time := isoTimestamp (start + p.secs)
    distanceMeters := p.dist * 1000
    heartRateBpm := p.heart
    cadence := p.cadence
    speedMps := metersPerSec p.speed
    watts := p.power }

/-- The emitted `Lap` element (`Revolution.addLap`), child values in
source order.  `avgHeartRateBpm`, `avgCadence` and `avgWatts` are `ℚ` so
that the same structure carries the classic variant's floored integer
averages and the GT variant's true-division averages. -/
structure Lap where
  startTime : String
  totalTimeSeconds : Nat
  distanceMeters : ℚ
  maximumSpeed : ℚ
  calories : ℤ
  avgHeartRateBpm : ℚ
  maxHeartRateBpm : ℤ
  intensity : String
  avgCadence : ℚ
  triggerMethod : String
  track : List Trackpoint
  maxBikeCadence : ℤ
  avgSpeed : ℚ
  avgWatts : ℚ
  maxWatts : ℤ
deriving DecidableEq

/-- `Revolution.addLap` (classic variant, Python 2): `points[last]` on an
empty list raises `IndexError` — this is how a zero-sample file aborts.
`ttlHeart / (last+1)` and the cadence/watts analogues are Python 2 integer
division, i.e. floor division (`Int.fdiv`). -/
def addLap (startsec : Int) (ps : List Point) (st : Stats) : Except Err Lap :=
  match ps.getLast? with
  | none => .error .indexError
  | some lastP =>
    .ok { startTime := isoTimestamp startsec
          totalTimeSeconds := lastP.secs
          distanceMeters := lastP.dist * 1000
          maximumSpeed := metersPerSec st.maxSpeed
          calories := lastP.calories
          avgHeartRateBpm := ((Int.fdiv st.ttlHeart (ps.length : Int) : ℤ) : ℚ)
          maxHeartRateBpm := st.maxHeart
          intensity := "Active"
          avgCadence := ((Int.fdiv st.ttlCadence (ps.length : Int) : ℤ) : ℚ)
          triggerMethod := "Manual"
          track := ps.map (trackpointElement startsec)
          maxBikeCadence := st.maxCadence
          avgSpeed := metersPerSec (st.ttlSpeed / (ps.length : ℚ))
          avgWatts := ((Int.fdiv st.ttlWatts (ps.length : Int) : ℤ) : ℚ)
          maxWatts := st.maxWatts }

/-- `Revolution.addLap` (GT variant, Python 3): identical except that the
three integer-valued averages use true division. -/
def addLapGT (startsec : Int) (ps : List Point) (st : Stats) : Except Err Lap :=
  match ps.getLast? with
  | none => .error .indexError
  | some lastP =>
    .ok { startTime := isoTimestamp startsec
          totalTimeSeconds := lastP.secs
          distanceMeters := lastP.dist * 1000
          maximumSpeed := metersPerSec st.maxSpeed
          calories := lastP.calories
          avgHeartRateBpm := (st.ttlHeart : ℚ) / (ps.length : ℚ)
          maxHeartRateBpm := st.maxHeart
          intensity := "Active"
          avgCadence := (st.ttlCadence : ℚ) / (ps.length : ℚ)
          triggerMethod := "Manual"
          track := ps.map (trackpointElement startsec)
          maxBikeCadence := st.maxCadence
          avgSpeed := metersPerSec (st.ttlSpeed / (ps.length : ℚ))
          avgWatts := (st.ttlWatts : ℚ) / (ps.length : ℚ)
          maxWatts := st.maxWatts }

/-- `SUPPORTED_FIRMWARE = [63]` (classic variant). -/
def SUPPORTED_FIRMWARE : List Int := [63]

/-- `SUPPORTED_FIRMWARE = ["0.31"]` (GT variant). -/
def SUPPORTED_FIRMWARE_GT : List String := ["0.31"]

/-- Decoded device header of the classic variant. -/
structure DeviceHdr where
  make : String
  model : String
  fw : ℤ
  hw : ℤ
  startsec : Int
  alt : ℤ
  temp : ℤ
  humid : ℤ
  tire : ℤ
  cf : ℤ
deriving DecidableEq

/-- Decoded device header of the GT variant. -/
structure DeviceHdrGT where
  make_model : String
  fw : String
  hw : String
  startsec : Int
deriving DecidableEq

/-- `Revolution.parseInt(str, tag)`: split on single spaces, check the
leading tag, convert the second token with `int()`. -/
def parseIntTagged (s tag : String) : Except Err Int :=
  match (splitOnChar ' ' s.data).map String.mk with
  | [] => .error .indexError
  | t :: rest =>
    if t ≠ tag then .error (.tagMismatch tag t)
    else
      match rest with
      | [] => .error .indexError
      | v :: _ =>
        match parseIntStr v with
        | some n => .ok n
        | none => .error .valueError

/-- `Revolution.parseDeviceHdr` (classic variant).  `mk` stands for the
`time.strptime`/`time.mktime` composite of `parseTime`, which reads the
machine's current year and local timezone; it is therefore passed in as an
explicit collaborator. -/
def parseDeviceHdr (mk : String → String → Option Int) (row : List String) :
    Except Err DeviceHdr :=
  if row.length ≠ 11 then .error (.colCount 11 row.length)
  else
    let make := pystrip (row.getD 0 "")
    let model := pystrip (row.getD 1 "")
    if ¬(make = "LeMond" ∧ model = "Revolution") then .error .badIdentity
    else do
      let fw ← parseIntTagged (row.getD 2 "") "FW"
      if fw ∉ SUPPORTED_FIRMWARE then .error (.firmware SUPPORTED_FIRMWARE fw)
      else do
        let hw ← parseIntTagged (row.getD 3 "") "HW"
        let startsec ← orValueError (mk (row.getD 4 "") (row.getD 5 ""))
        let alt ← parseIntTagged (row.getD 6 "") "Alt"
        let temp ← parseIntTagged (row.getD 7 "") "Temp"
        let humid ← parseIntTagged (row.getD 8 "") "Hum"
        let tire ← parseIntTagged (row.getD 9 "") "Tire"
        let cf ← parseIntTagged (row.getD 10 "") "CF"
        pure { make := make, model := model, fw := fw, hw := hw,
               startsec := startsec, alt := alt, temp := temp,
               humid := humid, tire := tire, cf := cf }

/-- `"{0:>05s}".format(s)`: right-align in width 5, fill with `0`. -/
def pad5 (s : String) : String :=
  if s.data.length < 5 then
    String.mk (List.replicate (5 - s.data.length) '0' ++ s.data)
  else s

/-- `Revolution.parseDeviceHdr` (GT variant).  As above, `mk` models the
locale-dependent `parseTime`. -/
def parseDeviceHdrGT (mk : String → String → Option Int) (row : List String) :
    Except Err DeviceHdrGT :=
  if row.length ≠ 9 then .error (.colCount 9 row.length)
  else
    let mm := pystrip (row.getD 0 "")
    if mm ≠ "LeMond Revolution" then .error .badIdentity
    else
      let fw_str := row.getD 1 ""
      if ¬startsWithChars ['F', 'W', ' '] fw_str.data then .error (.fwFormatGT fw_str)
      else
        let fw := String.mk (trimChars (fw_str.data.drop 3))
        if fw ∉ SUPPORTED_FIRMWARE_GT then
          .error (.firmwareGT SUPPORTED_FIRMWARE_GT fw)
        else
          let hw := String.mk (trimChars ((row.getD 2 "").data.drop 3))
          match mk (row.getD 4 "") (pad5 (row.getD 5 "")) with
          | none => .error .valueError
          | some t =>
            .ok { make_model := mm, fw := fw, hw := hw, startsec := t }

/-- The fixed `Creator` block (`Revolution.addCreator`, classic). -/
structure Creator where
  name : String
  unitId : String
  productId : String
  versionMajor : String
  versionMinor : String
deriving DecidableEq

/-- The whole emitted document (`Revolution.trainingCenterDB`): one
activity (id + lap + creator) plus the fixed `Author` block, whose
constant fields are inlined here. -/
structure TCX where
  id : String
  lap : Lap
  creator : Creator
  authorName : String
  authorVersionMajor : String
  authorVersionMinor : String
  authorLangId : String
  authorPartNumber : String
deriving DecidableEq

/-- End-to-end conversion, classic variant: `Revolution.__init__` /
`readCSV` followed by `trainingCenterDB`.  The input is the CSV row
stream; any raise aborts with no document. -/
def convert (mk : String → String → Option Int) (rows : List (List String)) :
    Except Err TCX :=
  match rows with
  | [] => .error .stopIteration
  | hdrRow :: rest =>
    match parseDeviceHdr mk hdrRow with
    | .error e => .error e
    | .ok dh =>
      match rest with
      | [] => .error .stopIteration
      | pRow :: dataRows =>
        match parsePointHdr pRow with
        | .error e => .error e
        | .ok _ =>
          match processRows dataRows initStats with
          | .error e => .error e
          | .ok (ps, st) =>
            match addLap dh.startsec ps st with
            | .error e => .error e
            | .ok lap =>
              .ok { id := isoTimestamp dh.startsec
                    lap := lap
                    creator := { name := dh.make ++ " " ++ dh.model
                                 unitId := "0"
                                 productId := toString dh.hw
                                 versionMajor := toString dh.fw
                                 versionMinor := "0" }
                    authorName := "Revolution CSV to TCX Convertor"
                    authorVersionMajor := "1"
                    authorVersionMinor := "0"
                    authorLangId := "en"
                    authorPartNumber := "none" }

/-- End-to-end conversion, GT variant. -/
def convertGT (mk : String → String → Option Int) (rows : List (List String)) :
    Except Err TCX :=
  match rows with
  | [] => .error .stopIteration
  | hdrRow :: rest =>
    match parseDeviceHdrGT mk hdrRow with
    | .error e => .error e
    | .ok dh =>
      match rest with
      | [] => .error .stopIteration
      | pRow :: dataRows =>
        match parsePointHdrGT pRow with
        | .error e => .error e
        | .ok _ =>
          match processRows dataRows initStats with
          | .error e => .error e
          | .ok (ps, st) =>
            match addLapGT dh.startsec ps st with
            | .error e => .error e
            | .ok lap =>
              .ok { id := isoTimestamp dh.startsec
                    lap := lap
                    creator := { name := dh.make_model
                                 unitId := "0"
                                 productId := dh.hw
                                 versionMajor :=
                                   ((splitOnChar '.' dh.fw.data).map String.mk).getD 0 ""
                                 versionMinor :=
                                   ((splitOnChar '.' dh.fw.data).map String.mk).getD 1 "" }
                    authorName := "Revolution CSV to TCX Convertor"
                    authorVersionMajor := "1"
                    authorVersionMinor := "0"
                    authorLangId := "en"
                    authorPartNumber := "none" }

/-- Decode plus lap assembly at a fixed start epoch, classic variant
(the composition exercised by the data-row claims). -/
def lapOfRows (rows : List (List String)) : Except Err Lap :=
  match processRows rows initStats with
  | .error e => .error e
  | .ok (ps, st) => addLap 0 ps st

/-- Decode plus lap assembly, GT variant. -/
def lapOfRowsGT (rows : List (List String)) : Except Err Lap :=
  match processRows rows initStats with
  | .error e => .error e
  | .ok (ps, st) => addLapGT 0 ps st

/-! Concrete inputs used by witnesses and counterexamples. -/

/-- A well-formed single data row. -/
def rowA : List String := ["00:00:01", "3.6", "9.9", "200", "100", "90", "5", "10", "T"]

/-- The decoded (and distance-corrected) point of `rowA`. -/
def pA : Point :=
  { secs := 1, speed := 18/5, dist := 1/1000, power := 200, heart := 100,
    cadence := 90, calories := 5, torque := 10, target := "T" }

/-- The decoded (and distance-corrected) point list of `[rowA]`. -/
def psA : List Point := [pA]

/-- The accumulator state after processing `[rowA]`. -/
def stA : Stats :=
  { maxSpeed := 18/5, maxHeart := 100, maxCadence := 90, maxWatts := 200,
    ttlSpeed := 18/5, ttlHeart := 100, ttlCadence := 90, ttlWatts := 200,
    ttlDist := 1 }

/-- The lap emitted for `psA`/`stA` at start epoch 0 (identical under both
variants, since one sample divides evenly). -/
def lapA : Lap :=
  { startTime := "1970-01-01T00:00:00.000Z", totalTimeSeconds := 1,
    distanceMeters := 1, maximumSpeed := 1, calories := 5,
    avgHeartRateBpm := 100, maxHeartRateBpm := 100, intensity := "Active",
    avgCadence := 90, triggerMethod := "Manual",
    track := [{ time := "1970-01-01T00:00:01.000Z", distanceMeters := 1,
                heartRateBpm := 100, cadence := 90, speedMps := 1, watts := 200 }],
    maxBikeCadence := 90, avgSpeed := 1, avgWatts := 200, maxWatts := 200 }

/-- A stand-in for the environment-dependent `parseTime` collaborator. -/
def mkA : String → String → Option Int := fun _ _ => some 0

/-- The decoded classic device header of `devRowA` under `mkA`. -/
def dhA : DeviceHdr :=
  { make := "LeMond", model := "Revolution", fw := 63, hw := 1, startsec := 0,
    alt := 1, temp := 20, humid := 50, tire := 2096, cf := 83 }

/-- The decoded GT device header of `devRowGTA` under `mkA`. -/
def dhGTA : DeviceHdrGT :=
  { make_model := "LeMond Revolution", fw := "0.31", hw := "1.0", startsec := 0 }

/-- A valid classic device-header row. -/
def devRowA : List String :=
  ["LeMond", "Revolution", "FW 63", "HW 1", "09/26", "13:00",
   "Alt 1", "Temp 20", "Hum 50", "Tire 2096", "CF 83"]

/-- The classic device-header row with unsupported firmware 64. -/
def devRowBadFw : List String :=
  ["LeMond", "Revolution", "FW 64", "HW 1", "09/26", "13:00",
   "Alt 1", "Temp 20", "Hum 50", "Tire 2096", "CF 83"]

/-- A valid GT device-header row. -/
def devRowGTA : List String :=
  ["LeMond Revolution", "FW 0.31", "HW 1.0", "STN 1", "140926", "9:30",
   "x", "y", "z"]

/-- The GT device-header row with unsupported firmware 0.30. -/
def devRowGTBadFw : List String :=
  ["LeMond Revolution", "FW 0.30", "HW 1.0", "STN 1", "140926", "9:30",
   "x", "y", "z"]

/-- Two data rows whose heart rates sum to 201 (odd, so the exact average
201/2 is not an integer). -/
def rowsOddHeart : List (List String) :=
  [["00:00:01", "3.6", "9.9", "200", "100", "90", "5", "10", "T"],
   ["00:00:02", "3.6", "9.9", "200", "101", "90", "5", "10", "T"]]

/-- A data row with ten fields, the first nine well-formed. -/
def rowTenFields : List String :=
  ["00:00:01", "3.6", "9.9", "200", "100", "90", "5", "10", "T", "extra"]

/-- A data row with eight fields. -/
def rowEightFields : List String :=
  ["00:00:01", "3.6", "9.9", "200", "100", "90", "5", "10"]

/-- A data row whose DIST field (index 2) is not numeric. -/
def rowBadDist : List String :=
  ["00:00:01", "3.6", "oops", "200", "100", "90", "5", "10", "T"]

/-- The classic point header with two columns swapped. -/
def hdrReordered : List String :=
  ["SPEED", "TIME", "DIST", "POWER", "HEART RATE", "CADENCE", "CALORIES",
   "TORQUE", "TARGET"]

/-- The classic point header with the DIST column missing. -/
def hdrMissingOne : List String :=
  ["TIME", "SPEED", "POWER", "HEART RATE", "CADENCE", "CALORIES",
   "TORQUE", "TARGET"]

/-- The GT point header with two columns swapped. -/
def hdrReorderedGT : List String :=
  ["SPEED", "secs", "DIST", "POWER", "heart", "cadence", "CALORIES",
   "TORQUE", "target"]

/-! ## Helper lemmas -/

/-- The source updates maxima with a strict-greater test; that is `max`. -/
theorem if_lt_eq_max {α : Type} [LinearOrder α] (a b : α) :
    (if a < b then b else a) = max a b := by
  rcases lt_or_ge a b with hl | hg
  · simp [hl, max_eq_right hl.le]
  · simp [not_lt.mpr hg, max_eq_left hg]

/-- Central invariant of the per-row loop: the final accumulators are the
sums/maxima over the emitted point list, and every emitted point's
distance is the prefix-sum of speeds (in m/s) divided by 1000. -/
theorem processRows_spec (rows : List (List String)) (st : Stats)
    (ps : List Point) (stf : Stats) (h : processRows rows st = .ok (ps, stf)) :
    stf.ttlSpeed = st.ttlSpeed + (ps.map Point.speed).sum ∧
    stf.ttlHeart = st.ttlHeart + (ps.map Point.heart).sum ∧
    stf.ttlCadence = st.ttlCadence + (ps.map Point.cadence).sum ∧
    stf.ttlWatts = st.ttlWatts + (ps.map Point.power).sum ∧
    stf.maxSpeed = (ps.map Point.speed).foldl max st.maxSpeed ∧
    stf.maxHeart = (ps.map Point.heart).foldl max st.maxHeart ∧
    stf.maxCadence = (ps.map Point.cadence).foldl max st.maxCadence ∧
    stf.maxWatts = (ps.map Point.power).foldl max st.maxWatts ∧
    stf.ttlDist = st.ttlDist + (ps.map (fun p => metersPerSec p.speed)).sum ∧
    ∀ i (hi : i < ps.length),
      (ps.get ⟨i, hi⟩).dist
        = (st.ttlDist + ((ps.take (i + 1)).map (fun p => metersPerSec p.speed)).sum) / 1000 := by
  induction rows generalizing st ps stf with
  | nil =>
    simp only [processRows, Except.ok.injEq, Prod.mk.injEq] at h
    obtain ⟨h1, h2⟩ := h
    subst h1; subst h2
    simp
  | cons r rs IH =>
    rw [processRows] at h
    cases hp : pointOfRow r with
    | error e => rw [hp] at h; exact absurd h (by simp)
    | ok p =>
      rw [hp] at h
      simp only [] at h
      cases hrec : processRows rs (fixDistance (collectStats st p) p).1 with
      | error e => rw [hrec] at h; exact absurd h (by simp)
      | ok pr =>
        obtain ⟨ps2, st2⟩ := pr
        rw [hrec] at h
        simp only [Except.ok.injEq, Prod.mk.injEq] at h
        obtain ⟨hps, hstf⟩ := h
        subst hstf
        obtain ⟨i1, i2, i3, i4, i5, i6, i7, i8, i9, i10⟩ := IH _ _ _ hrec
        subst hps
        refine ⟨?_, ?_, ?_, ?_, ?_, ?_, ?_, ?_, ?_, ?_⟩
        · simp only [i1, fixDistance, collectStats, List.map_cons, List.sum_cons]
          ring
        · simp only [i2, fixDistance, collectStats, List.map_cons, List.sum_cons]
          ring
        · simp only [i3, fixDistance, collectStats, List.map_cons, List.sum_cons]
          ring
        · simp only [i4, fixDistance, collectStats, List.map_cons, List.sum_cons]
          ring
        · simp only [i5, fixDistance, collectStats, List.map_cons, List.foldl_cons,
            gt_iff_lt, if_lt_eq_max]
        · simp only [i6, fixDistance, collectStats, List.map_cons, List.foldl_cons,
            gt_iff_lt, if_lt_eq_max]
        · simp only [i7, fixDistance, collectStats, List.map_cons, List.foldl_cons,
            gt_iff_lt, if_lt_eq_max]
        · simp only [i8, fixDistance, collectStats, List.map_cons, List.foldl_cons,
            gt_iff_lt, if_lt_eq_max]
        · simp only [i9, fixDistance, collectStats, List.map_cons, List.sum_cons]
          ring
        · intro i hi
          match i with
          | 0 =>
            simp only [List.get, fixDistance, collectStats, List.take_succ_cons,
              List.take_zero, List.map_cons, List.map_nil, List.sum_cons,
              List.sum_nil, add_zero]
          | j + 1 =>
            have hj : j < ps2.length := by
              simpa [List.length_cons, Nat.succ_lt_succ_iff] using hi
            have := i10 j hj
            simp only [List.get] at this ⊢
            rw [this]
            simp only [fixDistance, collectStats, List.take_succ_cons,
              List.map_cons, List.sum_cons]
            ring_nf

/-- The seed of a `foldl max` bounds it from below, and so does every
list element. -/
theorem le_foldl_max {α : Type} [LinearOrder α] (l : List α) (a : α) :
    a ≤ l.foldl max a ∧ ∀ x ∈ l, x ≤ l.foldl max a := by
  induction l generalizing a with
  | nil => simp
  | cons b bs ih =>
    obtain ⟨h1, h2⟩ := ih (max a b)
    refine ⟨le_trans (le_max_left a b) h1, ?_⟩
    intro x hx
    rcases List.mem_cons.mp hx with hx1 | hx2
    · subst hx1
      exact le_trans (le_max_right a x) h1
    · exact h2 x hx2

/-- A `foldl max` is either its seed or an element of the list. -/
theorem foldl_max_mem {α : Type} [LinearOrder α] (l : List α) (a : α) :
    l.foldl max a = a ∨ l.foldl max a ∈ l := by
  induction l generalizing a with
  | nil => simp
  | cons b bs ih =>
    rw [List.foldl_cons]
    rcases ih (max a b) with h | h
    · rcases max_cases a b with ⟨hm, _⟩ | ⟨hm, _⟩
      · left; rw [h, hm]
      · right; rw [h, hm]; exact List.mem_cons_self b bs
    · right; exact List.mem_cons_of_mem b h

/-- For a non-empty list of nonnegative values, `foldl max 0` is the true
maximum: an element of the list that bounds every element. -/
theorem foldl_max_is_max {α : Type} [LinearOrderedAddCommGroup α] (l : List α)
    (hne : l ≠ []) (hnn : ∀ x ∈ l, 0 ≤ x) :
    l.foldl max 0 ∈ l ∧ ∀ x ∈ l, x ≤ l.foldl max 0 := by
  obtain ⟨_, hub⟩ := le_foldl_max l 0
  refine ⟨?_, hub⟩
  rcases foldl_max_mem l 0 with h0 | hmem
  · match l, hne with
    | b :: bs, _ =>
      have hb := hub b (List.mem_cons_self b bs)
      rw [h0] at hb ⊢
      have := hnn b (List.mem_cons_self b bs)
      have hb0 : b = 0 := le_antisymm hb this
      rw [← hb0]
      exact List.mem_cons_self b bs
  · exact hmem

/-- Prefix sums of a list of nonnegative rationals are monotone in the
prefix length. -/
theorem sum_take_mono (l : List ℚ) (hnn : ∀ x ∈ l, 0 ≤ x) {i j : ℕ}
    (hij : i ≤ j) : (l.take i).sum ≤ (l.take j).sum := by
  have hsplit : l.take i ++ (l.take j).drop i = l.take j := by
    have : (l.take j).take i = l.take i := by
      rw [List.take_take, min_eq_left hij]
    rw [← this, List.take_append_drop]
  have hnn2 : 0 ≤ ((l.take j).drop i).sum := by
    refine List.sum_nonneg ?_
    intro x hx
    exact hnn x (List.take_subset j l (List.drop_subset i (l.take j) hx))
  calc (l.take i).sum ≤ (l.take i).sum + ((l.take j).drop i).sum :=
        le_add_of_nonneg_right hnn2
    _ = (l.take j).sum := by rw [← List.sum_append, hsplit]

/-- Unpack a successful `getLast?` into the index-form last element. -/
theorem getLast?_eq_some_get {α : Type} {l : List α} {x : α}
    (h : l.getLast? = some x) :
    ∃ hne : l ≠ [],
      x = l.get ⟨l.length - 1, Nat.sub_lt (List.length_pos.mpr hne) one_pos⟩ := by
  have hne : l ≠ [] := by
    intro he
    subst he
    simp [List.getLast?] at h
  refine ⟨hne, ?_⟩
  rw [List.getLast?_eq_getLast l hne] at h
  have := List.getLast_eq_get l hne
  rw [this] at h
  exact (Option.some.injEq _ _ ▸ h).symm

/-- `Revolution.addLap` on a non-empty point list, with the last point
made explicit. -/
theorem addLap_eq (startsec : Int) (ps : List Point) (st : Stats)
    (lastP : Point) (h : ps.getLast? = some lastP) :
    addLap startsec ps st =
      .ok { startTime := isoTimestamp startsec
            totalTimeSeconds := lastP.secs
            distanceMeters := lastP.dist * 1000
            maximumSpeed := metersPerSec st.maxSpeed
            calories := lastP.calories
            avgHeartRateBpm := ((Int.fdiv st.ttlHeart (ps.length : Int) : ℤ) : ℚ)
            maxHeartRateBpm := st.maxHeart
            intensity := "Active"
            avgCadence := ((Int.fdiv st.ttlCadence (ps.length : Int) : ℤ) : ℚ)
            triggerMethod := "Manual"
            track := ps.map (trackpointElement startsec)
            maxBikeCadence := st.maxCadence
            avgSpeed := metersPerSec (st.ttlSpeed / (ps.length : ℚ))
            avgWatts := ((Int.fdiv st.ttlWatts (ps.length : Int) : ℤ) : ℚ)
            maxWatts := st.maxWatts } := by
  rw [addLap, h]

/-- `Revolution.addLap`, GT variant, on a non-empty point list. -/
theorem addLapGT_eq (startsec : Int) (ps : List Point) (st : Stats)
    (lastP : Point) (h : ps.getLast? = some lastP) :
    addLapGT startsec ps st =
      .ok { startTime := isoTimestamp startsec
            totalTimeSeconds := lastP.secs
            distanceMeters := lastP.dist * 1000
            maximumSpeed := metersPerSec st.maxSpeed
            calories := lastP.calories
            avgHeartRateBpm := (st.ttlHeart : ℚ) / (ps.length : ℚ)
            maxHeartRateBpm := st.maxHeart
            intensity := "Active"
            avgCadence := (st.ttlCadence : ℚ) / (ps.length : ℚ)
            triggerMethod := "Manual"
            track := ps.map (trackpointElement startsec)
            maxBikeCadence := st.maxCadence
            avgSpeed := metersPerSec (st.ttlSpeed / (ps.length : ℚ))
            avgWatts := (st.ttlWatts : ℚ) / (ps.length : ℚ)
            maxWatts := st.maxWatts } := by
  rw [addLapGT, h]

/-- Distance formula of the pipeline, with the zero initial accumulator:
every emitted point's `dist` is the prefix sum of speeds in m/s, divided
by 1000. -/
theorem dist_formula (rows : List (List String)) (ps : List Point)
    (st : Stats) (h : processRows rows initStats = .ok (ps, st)) :
    ∀ i (hi : i < ps.length),
      (ps.get ⟨i, hi⟩).dist
        = ((ps.take (i + 1)).map (fun p => metersPerSec p.speed)).sum / 1000 := by
  obtain ⟨-, -, -, -, -, -, -, -, -, i10⟩ := processRows_spec rows initStats ps st h
  intro i hi
  have := i10 i hi
  rwa [show initStats.ttlDist = 0 from rfl, zero_add] at this

/-! ## Claims -/

/-- C1: for every valid input with samples of speeds `s_0..s_{n-1}` (km/h),
after the distance correction the `i`-th sample's `distanceKm` equals
`(sum over j ≤ i of s_j/3.6) / 1000`, and the final emitted lap
`DistanceMeters` (both variants) equals the sum over all samples of
`s_j/3.6` — independent of the raw vendor distance field, which
`fixDistance` never reads. -/
theorem C1_distance_integration (rows : List (List String)) (ps : List Point)
    (st : Stats) (h : processRows rows initStats = .ok (ps, st)) :
    (∀ i (hi : i < ps.length),
      (ps.get ⟨i, hi⟩).dist
        = ((ps.take (i + 1)).map (fun p => metersPerSec p.speed)).sum / 1000) ∧
    (∀ startsec lap, addLap startsec ps st = .ok lap →
      lap.distanceMeters = (ps.map (fun p => metersPerSec p.speed)).sum) ∧
    (∀ startsec lap, addLapGT startsec ps st = .ok lap →
      lap.distanceMeters = (ps.map (fun p => metersPerSec p.speed)).sum) ∧
    (∀ (stx : Stats) (p : Point) (d : ℚ),
      ((fixDistance stx p).2).dist = ((fixDistance stx { p with dist := d }).2).dist) := by
  have hdist := dist_formula rows ps st h
  have hlast : ∀ lastP, ps.getLast? = some lastP →
      lastP.dist * 1000 = (ps.map (fun p => metersPerSec p.speed)).sum := by
    intro lastP hl
    obtain ⟨hne, hget⟩ := getLast?_eq_some_get hl
    have hlen : 0 < ps.length := List.length_pos.mpr hne
    have := hdist (ps.length - 1) (Nat.sub_lt hlen one_pos)
    rw [← hget] at this
    have h1 : ps.length - 1 + 1 = ps.length := by omega
    rw [this, h1, List.take_length]
    exact div_mul_cancel₀ _ (by norm_num)
  refine ⟨hdist, ?_, ?_, ?_⟩
  · intro startsec lap hlap
    cases hl : ps.getLast? with
    | none => rw [addLap, hl] at hlap; exact absurd hlap (by simp)
    | some lastP =>
      rw [addLap_eq startsec ps st lastP hl] at hlap
      obtain rfl := Except.ok.inj hlap
      exact hlast lastP hl
  · intro startsec lap hlap
    cases hl : ps.getLast? with
    | none => rw [addLapGT, hl] at hlap; exact absurd hlap (by simp)
    | some lastP =>
      rw [addLapGT_eq startsec ps st lastP hl] at hlap
      obtain rfl := Except.ok.inj hlap
      exact hlast lastP hl
  · intro stx p d
    simp [fixDistance]

unseal Rat.mul Rat.inv Rat.ofScientific Rat.add Rat.sub in
set_option maxHeartbeats 1000000 in
/-- C1 witness: the single-row input `rowA` (speed 3.6 km/h) yields
`distanceKm = (3.6/3.6)/1000` and lap `DistanceMeters = 1`. -/
theorem C1_distance_integration_witness :
    (psA.get ⟨0, by decide⟩).dist
        = ((psA.take 1).map (fun p => metersPerSec p.speed)).sum / 1000 ∧
    lapA.distanceMeters = (psA.map (fun p => metersPerSec p.speed)).sum := by
  have h := C1_distance_integration [rowA] psA stA (by decide)
  exact ⟨h.1 0 (by decide), h.2.1 0 lapA (by decide)⟩

set_option maxHeartbeats 2000000 in
/-- C7: for every input whose decoded samples all have nonnegative speed,
the corrected `distanceKm` sequence is non-decreasing. -/
theorem C7_distance_nondecreasing (rows : List (List String)) (ps : List Point)
    (st : Stats) (h : processRows rows initStats = .ok (ps, st))
    (hnn : ∀ p ∈ ps, 0 ≤ p.speed) :
    ∀ i j (hi : i < ps.length) (hj : j < ps.length), i ≤ j →
      (ps.get ⟨i, hi⟩).dist ≤ (ps.get ⟨j, hj⟩).dist := by
  intro i j hi hj hij
  have hdist := dist_formula rows ps st h
  rw [hdist i hi, hdist j hj]
  have h1000 : (0 : ℚ) < 1000 := by norm_num
  refine (div_le_div_iff_of_pos_right h1000).mpr ?_
  rw [List.map_take, List.map_take]
  refine sum_take_mono (ps.map (fun p => metersPerSec p.speed)) ?_
    (Nat.succ_le_succ hij)
  intro x hx
  obtain ⟨p, hp, rfl⟩ := List.mem_map.mp hx
  exact div_nonneg (hnn p hp) (by norm_num)

unseal Rat.mul Rat.inv Rat.ofScientific Rat.add Rat.sub in
set_option maxHeartbeats 1000000 in
/-- C7 witness: the claim instantiated at the single-row input `rowA`. -/
theorem C7_distance_nondecreasing_witness :
    (psA.get ⟨0, by decide⟩).dist ≤ (psA.get ⟨0, by decide⟩).dist :=
  C7_distance_nondecreasing [rowA] psA stA (by decide) (by decide)
    0 0 (by decide) (by decide) (by decide)

/-- A successful `Except` bind factors through a successful first step. -/
theorem bind_ok {α β : Type} {a : Except Err α} {f : α → Except Err β}
    {v : β} (h : a >>= f = .ok v) : ∃ w, a = .ok w ∧ f w = .ok v := by
  cases a with
  | error e => exact absurd h (by simp [Bind.bind, Except.bind])
  | ok w => exact ⟨w, rfl, by simpa [Bind.bind, Except.bind] using h⟩

/-- `Point.__init__` only ever indexes fields 0..8, so truncating a row to
its first nine fields does not change the decoded point. -/
theorem idx_take (row : List String) (i : Nat) (h : i < 9) :
    idx (row.take 9) i = idx row i := by
  simp [idx, List.getElem?_take, h]

/-- C8: field 0 in `HH:MM:SS` form is parsed to seconds-since-midnight
`3600*H + 60*M + S` and stored as the sample's offset without subtracting
the activity start; each emitted `Trackpoint` `Time` is the UTC formatting
of `startEpochSeconds + offsetSeconds`; and the lap `TotalTimeSeconds`
equals the offset of the last sample. -/
theorem C8_time_fields :
    (∀ c1 c2 c3 c4 c5 c6 : Char,
      c1.isDigit = true → c2.isDigit = true → c3.isDigit = true →
      c4.isDigit = true → c5.isDigit = true → c6.isDigit = true →
      10 * digitVal c1 + digitVal c2 ≤ 23 →
      10 * digitVal c3 + digitVal c4 ≤ 59 →
      10 * digitVal c5 + digitVal c6 ≤ 61 →
      timeToSecs (String.mk [c1, c2, ':', c3, c4, ':', c5, c6])
        = some (3600 * (10 * digitVal c1 + digitVal c2)
            + 60 * (10 * digitVal c3 + digitVal c4)
            + (10 * digitVal c5 + digitVal c6))) ∧
    (∀ (start : Int) (p : Point),
      (trackpointElement start p).time = isoTimestamp (start + (p.secs : Int))) ∧
    (∀ (startsec : Int) (ps : List Point) (st : Stats) (lap : Lap),
      addLap startsec ps st = .ok lap →
      ∀ hne : ps ≠ [], lap.totalTimeSeconds = (ps.getLast hne).secs) := by
  refine ⟨?_, ?_, ?_⟩
  · intro c1 c2 c3 c4 c5 c6 h1 h2 h3 h4 h5 h6 hb1 hb2 hb3
    simp [timeToSecs, read2, h1, h2, h3, h4, h5, h6, hb1, hb2, hb3]
  · intro start p
    rfl
  · intro startsec ps st lap hlap hne
    have hl : ps.getLast? = some (ps.getLast hne) := List.getLast?_eq_getLast ps hne
    rw [addLap_eq startsec ps st _ hl] at hlap
    obtain rfl := Except.ok.inj hlap
    rfl

unseal Rat.mul Rat.inv Rat.ofScientific Rat.add Rat.sub in
set_option maxHeartbeats 1000000 in
/-- C8 witness: `"13:05:07"` parses to `47107`; the trackpoint of `pA` at
start 100 is timestamped at epoch 101; the lap over `psA` reports total
time 1, the offset of its last sample. -/
theorem C8_time_fields_witness :
    timeToSecs (String.mk ['1', '3', ':', '0', '5', ':', '0', '7'])
      = some (3600 * (10 * digitVal '1' + digitVal '3')
          + 60 * (10 * digitVal '0' + digitVal '5')
          + (10 * digitVal '0' + digitVal '7')) ∧
    (trackpointElement 100 pA).time = isoTimestamp (100 + (pA.secs : Int)) ∧
    lapA.totalTimeSeconds = (psA.getLast (by decide)).secs := by
  refine ⟨?_, C8_time_fields.2.1 100 pA, ?_⟩
  · exact C8_time_fields.1 '1' '3' '0' '5' '0' '7' (by decide) (by decide)
      (by decide) (by decide) (by decide) (by decide) (by decide) (by decide)
      (by decide)
  · exact C8_time_fields.2.2 0 psA stA lapA (by decide) (by decide)

/-- C2 counterexample: a data row with ten fields is not rejected — it
decodes successfully, refuting "a row with more than 9 fields is
rejected". -/
theorem C2_counterexample :
    rowTenFields.length = 10 ∧ (pointOfRow rowTenFields).isOk = true := by
  exact ⟨rfl, by decide⟩

/-- C2 (amended): `Point.__init__` performs no field-count check.  A row
with fewer than nine fields always fails to decode (at the latest with an
index error), and only the first nine fields are ever read, so a row with
nine or more fields is never rejected for its field count. -/
theorem C2_field_count (row : List String) :
    (row.length < 9 → (pointOfRow row).isOk = false) ∧
    pointOfRow row = pointOfRow (row.take 9) := by
  constructor
  · intro hlen
    cases hrow : pointOfRow row with
    | error e => rfl
    | ok p =>
      exfalso
      unfold pointOfRow at hrow
      obtain ⟨f0, h0, hrow⟩ := bind_ok hrow
      obtain ⟨v0, hv0, hrow⟩ := bind_ok hrow
      obtain ⟨f1, h1, hrow⟩ := bind_ok hrow
      obtain ⟨v1, hv1, hrow⟩ := bind_ok hrow
      obtain ⟨f2, h2, hrow⟩ := bind_ok hrow
      obtain ⟨v2, hv2, hrow⟩ := bind_ok hrow
      obtain ⟨f3, h3, hrow⟩ := bind_ok hrow
      obtain ⟨v3, hv3, hrow⟩ := bind_ok hrow
      obtain ⟨f4, h4, hrow⟩ := bind_ok hrow
      obtain ⟨v4, hv4, hrow⟩ := bind_ok hrow
      obtain ⟨f5, h5, hrow⟩ := bind_ok hrow
      obtain ⟨v5, hv5, hrow⟩ := bind_ok hrow
      obtain ⟨f6, h6, hrow⟩ := bind_ok hrow
      obtain ⟨v6, hv6, hrow⟩ := bind_ok hrow
      obtain ⟨f7, h7, hrow⟩ := bind_ok hrow
      obtain ⟨v7, hv7, hrow⟩ := bind_ok hrow
      obtain ⟨f8, h8, hrow⟩ := bind_ok hrow
      have : row[8]? = none := List.getElem?_eq_none (by omega)
      simp [idx, this] at h8
  · unfold pointOfRow
    rw [idx_take row 0 (by omega), idx_take row 1 (by omega),
      idx_take row 2 (by omega), idx_take row 3 (by omega),
      idx_take row 4 (by omega), idx_take row 5 (by omega),
      idx_take row 6 (by omega), idx_take row 7 (by omega),
      idx_take row 8 (by omega)]

/-- C2 amended witness: an eight-field row fails to decode; a ten-field
row decodes exactly as its nine-field truncation does. -/
theorem C2_field_count_witness :
    (pointOfRow rowEightFields).isOk = false ∧
    pointOfRow rowTenFields = pointOfRow (rowTenFields.take 9) :=
  ⟨(C2_field_count rowEightFields).1 (by decide), (C2_field_count rowTenFields).2⟩

/-- Result of `Except.isOk` being false rules out every `ok` value. -/
theorem isOk_false_ne_ok {α : Type} {a : Except Err α}
    (h : a.isOk = false) : ∀ v, a ≠ .ok v := by
  intro v hv
  subst hv
  simp [Except.isOk, Except.toBool] at h

/-- A row that fails to decode makes the whole row loop fail, wherever it
occurs in the input. -/
theorem processRows_fail (row : List String)
    (hrow : ∀ p, pointOfRow row ≠ .ok p) :
    ∀ (pre post : List (List String)) (st : Stats),
      (processRows (pre ++ row :: post) st).isOk = false := by
  intro pre
  induction pre with
  | nil =>
    intro post st
    cases hp : pointOfRow row with
    | error e => simp [processRows, hp, Except.isOk, Except.toBool]
    | ok p => exact absurd hp (hrow p)
  | cons r rs ih =>
    intro post st
    cases hp : pointOfRow r with
    | error e => simp [processRows, hp, Except.isOk, Except.toBool]
    | ok p =>
      have hih := ih post (fixDistance (collectStats st p) p).1
      cases hrec : processRows (rs ++ row :: post) (fixDistance (collectStats st p) p).1 with
      | error e => simp [processRows, hp, hrec, Except.isOk, Except.toBool]
      | ok pr =>
        rw [hrec] at hih
        simp [Except.isOk, Except.toBool] at hih

/-- C10: even though the raw vendor distance is discarded and overwritten,
every data row's DIST field (field 2) must still parse as a number: a row
whose DIST field is non-numeric fails to decode, and its presence anywhere
in the data rows aborts the whole conversion (both variants) with no
output. -/
theorem C10_dist_must_parse (row : List String)
    (hbad : parseFloat (row.getD 2 "") = none) :
    (pointOfRow row).isOk = false ∧
    (∀ (mk : String → String → Option Int) (hdr ph : List String)
       (pre post : List (List String)),
      (convert mk (hdr :: ph :: (pre ++ row :: post))).isOk = false) ∧
    (∀ (mk : String → String → Option Int) (hdr ph : List String)
       (pre post : List (List String)),
      (convertGT mk (hdr :: ph :: (pre ++ row :: post))).isOk = false) := by
  have hfail : (pointOfRow row).isOk = false := by
    cases hrow : pointOfRow row with
    | error e => rfl
    | ok p =>
      exfalso
      unfold pointOfRow at hrow
      obtain ⟨f0, h0, hrow⟩ := bind_ok hrow
      obtain ⟨v0, hv0, hrow⟩ := bind_ok hrow
      obtain ⟨f1, h1, hrow⟩ := bind_ok hrow
      obtain ⟨v1, hv1, hrow⟩ := bind_ok hrow
      obtain ⟨f2, h2, hrow⟩ := bind_ok hrow
      obtain ⟨v2, hv2, hrow⟩ := bind_ok hrow
      have hf2 : row[2]? = some f2 := by
        by_cases hx : 2 < row.length
        · rcases h2x : row[2]? with _ | y
          · simp [idx, h2x] at h2
          · simp [idx, h2x] at h2; rw [h2]
        · have : row[2]? = none := List.getElem?_eq_none (by omega)
          simp [idx, this] at h2
      have hgd : row.getD 2 "" = f2 := by
        simp [List.getD, hf2]
      rw [← hgd, hbad] at hv2
      simp [orValueError] at hv2
  have hne : ∀ p, pointOfRow row ≠ .ok p := isOk_false_ne_ok hfail
  refine ⟨hfail, ?_, ?_⟩
  · intro mk hdr ph pre post
    cases hdh : parseDeviceHdr mk hdr with
    | error e => simp [convert, hdh, Except.isOk, Except.toBool]
    | ok dh =>
      cases hph : parsePointHdr ph with
      | error e => simp [convert, hdh, hph, Except.isOk, Except.toBool]
      | ok u =>
        have hfr := processRows_fail row hne pre post initStats
        cases hrec : processRows (pre ++ row :: post) initStats with
        | error e => simp [convert, hdh, hph, hrec, Except.isOk, Except.toBool]
        | ok pr =>
          rw [hrec] at hfr
          simp [Except.isOk, Except.toBool] at hfr
  · intro mk hdr ph pre post
    cases hdh : parseDeviceHdrGT mk hdr with
    | error e => simp [convertGT, hdh, Except.isOk, Except.toBool]
    | ok dh =>
      cases hph : parsePointHdrGT ph with
      | error e => simp [convertGT, hdh, hph, Except.isOk, Except.toBool]
      | ok u =>
        have hfr := processRows_fail row hne pre post initStats
        cases hrec : processRows (pre ++ row :: post) initStats with
        | error e => simp [convertGT, hdh, hph, hrec, Except.isOk, Except.toBool]
        | ok pr =>
          rw [hrec] at hfr
          simp [Except.isOk, Except.toBool] at hfr

/-- C10 witness: a row with DIST field `"oops"` fails to decode and aborts
the conversion of an otherwise valid file. -/
theorem C10_dist_must_parse_witness :
    (pointOfRow rowBadDist).isOk = false ∧
    (convert mkA (devRowA :: expectedPointHdr :: ([] ++ rowBadDist :: []))).isOk = false := by
  have h := C10_dist_must_parse rowBadDist (by decide)
  exact ⟨h.1, h.2.1 mkA devRowA expectedPointHdr [] []⟩

/-- C3: an input with valid device and point-schema headers but zero data
rows fails — `points[last]` with `last = -1` on the empty sample list
raises `IndexError`, the concrete form of the spec's EmptySequenceError —
and no output document is produced.  Both variants. -/
theorem C3_empty_sequence (mk : String → String → Option Int)
    (hdr ph hdrGT phGT : List String) (dh : DeviceHdr) (dhGT : DeviceHdrGT)
    (h1 : parseDeviceHdr mk hdr = .ok dh) (h2 : parsePointHdr ph = .ok ())
    (h3 : parseDeviceHdrGT mk hdrGT = .ok dhGT)
    (h4 : parsePointHdrGT phGT = .ok ()) :
    (convert mk [hdr, ph] = .error .indexError ∧
      ∀ doc, convert mk [hdr, ph] ≠ .ok doc) ∧
    (convertGT mk [hdrGT, phGT] = .error .indexError ∧
      ∀ doc, convertGT mk [hdrGT, phGT] ≠ .ok doc) := by
  have hc : convert mk [hdr, ph] = .error .indexError := by
    simp [convert, h1, h2, processRows, addLap, List.getLast?]
  have hg : convertGT mk [hdrGT, phGT] = .error .indexError := by
    simp [convertGT, h3, h4, processRows, addLapGT, List.getLast?]
  exact ⟨⟨hc, by simp [hc]⟩, hg, by simp [hg]⟩

/-- C3 witness: concrete valid headers with zero data rows abort with the
empty-sequence index error under both variants. -/
theorem C3_empty_sequence_witness :
    convert mkA [devRowA, expectedPointHdr] = .error .indexError ∧
    convertGT mkA [devRowGTA, expectedPointHdrGT] = .error .indexError := by
  have h := C3_empty_sequence mkA devRowA expectedPointHdr devRowGTA
    expectedPointHdrGT dhA dhGTA (by decide) (by decide) (by decide) (by decide)
  exact ⟨h.1.1, h.2.1⟩

/-- Full case analysis of the generic point-header check. -/
theorem parsePointHdrWith_spec (exp row : List String) :
    ((parsePointHdrWith exp row).isOk = true ↔ (row.length = 9 ∧ exp = row)) ∧
    (row.length = 9 → exp ≠ row →
      parsePointHdrWith exp row = .error (.hdrMismatch exp row)) ∧
    (row.length ≠ 9 →
      parsePointHdrWith exp row = .error (.colCount 9 row.length)) := by
  unfold parsePointHdrWith
  by_cases h9 : row.length = 9
  · by_cases he : exp = row
    · simp [h9, he, Except.isOk, Except.toBool]
    · simp [h9, he, Except.isOk, Except.toBool]
  · simp [h9, Except.isOk, Except.toBool]

/-- C6: the point-schema header row is accepted iff it equals, positionally
and exactly, the expected 9-element column list of the active variant; a
reordered 9-element header is rejected with an error echoing both the
expected and actual lists, and a header of any other length (in particular
one missing a column) is rejected with the column-count error. -/
theorem C6_point_schema_positional (row : List String) :
    ((parsePointHdr row).isOk = true ↔ row = expectedPointHdr) ∧
    ((parsePointHdrGT row).isOk = true ↔ row = expectedPointHdrGT) ∧
    (row.length = 9 → row ≠ expectedPointHdr →
      parsePointHdr row = .error (.hdrMismatch expectedPointHdr row)) ∧
    (row.length = 9 → row ≠ expectedPointHdrGT →
      parsePointHdrGT row = .error (.hdrMismatch expectedPointHdrGT row)) ∧
    (row.length ≠ 9 →
      parsePointHdr row = .error (.colCount 9 row.length) ∧
      parsePointHdrGT row = .error (.colCount 9 row.length)) := by
  unfold parsePointHdr parsePointHdrGT
  obtain ⟨ia, ib, ic⟩ := parsePointHdrWith_spec expectedPointHdr row
  obtain ⟨ja, jb, jc⟩ := parsePointHdrWith_spec expectedPointHdrGT row
  refine ⟨?_, ?_, ?_, ?_, fun h => ⟨ic h, jc h⟩⟩
  · rw [ia]
    constructor
    · rintro ⟨-, he⟩; exact he.symm
    · rintro rfl; exact ⟨rfl, rfl⟩
  · rw [ja]
    constructor
    · rintro ⟨-, he⟩; exact he.symm
    · rintro rfl; exact ⟨rfl, rfl⟩
  · intro h9 hne; exact ib h9 (fun he => hne he.symm)
  · intro h9 hne; exact jb h9 (fun he => hne he.symm)

/-- C6 witness: a reordered classic header and a reordered GT header are
rejected with the list-echoing error; a header missing one column (8
fields) is rejected with the count error. -/
theorem C6_point_schema_positional_witness :
    parsePointHdr hdrReordered
      = .error (.hdrMismatch expectedPointHdr hdrReordered) ∧
    parsePointHdrGT hdrReorderedGT
      = .error (.hdrMismatch expectedPointHdrGT hdrReorderedGT) ∧
    parsePointHdr hdrMissingOne = .error (.colCount 9 hdrMissingOne.length) := by
  refine ⟨(C6_point_schema_positional hdrReordered).2.2.1 (by decide) (by decide),
    (C6_point_schema_positional hdrReorderedGT).2.2.2.1 (by decide) (by decide),
    ((C6_point_schema_positional hdrMissingOne).2.2.2.2 (by decide)).1⟩

/-- `Revolution.parseInt` never raises the firmware error. -/
theorem parseIntTagged_ne_firmware (s tag : String) (sup : List Int) (g : Int) :
    parseIntTagged s tag ≠ .error (.firmware sup g) := by
  unfold parseIntTagged
  split
  · simp
  · split
    · simp
    · split
      · simp
      · split <;> simp

/-- Lifting an option never raises the firmware error. -/
theorem orValueError_ne_firmware {α : Type} (o : Option α) (sup : List Int)
    (g : Int) : orValueError o ≠ .error (.firmware sup g) := by
  cases o <;> simp [orValueError]

/-- A bind whose parts never produce a given error never produces it. -/
theorem bind_ne_err {α β : Type} {a : Except Err α} {f : α → Except Err β}
    {e : Err} (ha : a ≠ .error e) (hf : ∀ x, f x ≠ .error e) :
    a >>= f ≠ .error e := by
  cases a with
  | error e2 =>
    intro hh
    simp only [Bind.bind, Except.bind, Except.error.injEq] at hh
    exact ha (by rw [hh])
  | ok w =>
    intro hh
    exact hf w (by simpa [Bind.bind, Except.bind] using hh)

/-- A firmware error out of the classic device-header parser can only come
from the whitelist test: it always carries the `SUPPORTED_FIRMWARE` list
and a parsed firmware value outside of it. -/
theorem parseDeviceHdr_firmware_classify (mk : String → String → Option Int)
    (row : List String) (s : List Int) (g : Int)
    (h : parseDeviceHdr mk row = .error (.firmware s g)) :
    s = SUPPORTED_FIRMWARE ∧
    parseIntTagged (row.getD 2 "") "FW" = .ok g ∧
    g ∉ SUPPORTED_FIRMWARE := by
  unfold parseDeviceHdr at h
  simp only [ne_eq] at h
  split at h
  · simp at h
  · split at h
    · simp at h
    · rcases hfw : parseIntTagged (row.getD 2 "") "FW" with e | fw
      · rw [hfw] at h
        simp only [Bind.bind, Except.bind] at h
        have he : e = Err.firmware s g := by simpa using h
        exact absurd (he ▸ hfw) (parseIntTagged_ne_firmware _ _ _ _)
      · rw [hfw] at h
        simp only [Bind.bind, Except.bind] at h
        split at h
        · rename_i hmem
          simp only [Except.error.injEq, Err.firmware.injEq] at h
          exact ⟨h.1.symm, by rw [h.2], h.2 ▸ hmem⟩
        · exfalso
          revert h
          refine bind_ne_err (parseIntTagged_ne_firmware _ _ _ _) (fun hw => ?_)
          refine bind_ne_err (orValueError_ne_firmware _ _ _) (fun t => ?_)
          refine bind_ne_err (parseIntTagged_ne_firmware _ _ _ _) (fun alt => ?_)
          refine bind_ne_err (parseIntTagged_ne_firmware _ _ _ _) (fun temp => ?_)
          refine bind_ne_err (parseIntTagged_ne_firmware _ _ _ _) (fun humid => ?_)
          refine bind_ne_err (parseIntTagged_ne_firmware _ _ _ _) (fun tire => ?_)
          refine bind_ne_err (parseIntTagged_ne_firmware _ _ _ _) (fun cf => ?_)
          simp [pure, Except.pure]

/-- A firmware error out of the GT device-header parser can only come from
the whitelist test. -/
theorem parseDeviceHdrGT_firmware_classify (mk : String → String → Option Int)
    (row : List String) (s : List String) (g : String)
    (h : parseDeviceHdrGT mk row = .error (.firmwareGT s g)) :
    s = SUPPORTED_FIRMWARE_GT ∧ g ∉ SUPPORTED_FIRMWARE_GT := by
  unfold parseDeviceHdrGT at h
  simp only [ne_eq] at h
  split at h
  · simp at h
  · split at h
    · simp at h
    · split at h
      · simp at h
      · split at h
        · rename_i hmem
          simp only [Except.error.injEq, Err.firmwareGT.injEq] at h
          exact ⟨h.1.symm, h.2 ▸ hmem⟩
        · split at h <;> simp at h

/-- C5: a device-header row carrying a firmware value outside the fixed
whitelist is rejected with the firmware `FormatError` that echoes the
supported set, and the conversion produces no output; conversely a
firmware error only ever reports a parsed firmware value that is outside
the whitelist, so whitelisted firmware never fails the firmware check.
Both variants. -/
theorem C5_firmware_gate (mk : String → String → Option Int) :
    (∀ (row : List String) (fw : Int), row.length = 11 →
      pystrip (row.getD 0 "") = "LeMond" → pystrip (row.getD 1 "") = "Revolution" →
      parseIntTagged (row.getD 2 "") "FW" = .ok fw → fw ∉ SUPPORTED_FIRMWARE →
      parseDeviceHdr mk row = .error (.firmware SUPPORTED_FIRMWARE fw) ∧
      ∀ rest, convert mk (row :: rest) = .error (.firmware SUPPORTED_FIRMWARE fw)) ∧
    (∀ row s g, parseDeviceHdr mk row = .error (.firmware s g) →
      s = SUPPORTED_FIRMWARE ∧ g ∉ SUPPORTED_FIRMWARE) ∧
    (∀ (row : List String) (fw : String), row.length = 9 →
      pystrip (row.getD 0 "") = "LeMond Revolution" →
      startsWithChars ['F', 'W', ' '] (row.getD 1 "").data = true →
      fw = String.mk (trimChars ((row.getD 1 "").data.drop 3)) →
      fw ∉ SUPPORTED_FIRMWARE_GT →
      parseDeviceHdrGT mk row = .error (.firmwareGT SUPPORTED_FIRMWARE_GT fw) ∧
      ∀ rest, convertGT mk (row :: rest) = .error (.firmwareGT SUPPORTED_FIRMWARE_GT fw)) ∧
    (∀ row s g, parseDeviceHdrGT mk row = .error (.firmwareGT s g) →
      s = SUPPORTED_FIRMWARE_GT ∧ g ∉ SUPPORTED_FIRMWARE_GT) := by
  refine ⟨?_, ?_, ?_, ?_⟩
  · intro row fw h11 hmk hmd hfw hmem
    have hp : parseDeviceHdr mk row = .error (.firmware SUPPORTED_FIRMWARE fw) := by
      unfold parseDeviceHdr
      simp only [ne_eq]
      rw [if_neg (not_not_intro h11), if_neg (not_not_intro ⟨hmk, hmd⟩), hfw]
      simp only [Bind.bind, Except.bind]
      rw [if_pos hmem]
    exact ⟨hp, fun rest => by simp [convert, hp]⟩
  · intro row s g h
    obtain ⟨h1, -, h3⟩ := parseDeviceHdr_firmware_classify mk row s g h
    exact ⟨h1, h3⟩
  · intro row fw h9 hmm hfws hfw hmem
    have hp : parseDeviceHdrGT mk row = .error (.firmwareGT SUPPORTED_FIRMWARE_GT fw) := by
      unfold parseDeviceHdrGT
      simp only [ne_eq]
      rw [if_neg (not_not_intro h9), if_neg (not_not_intro hmm),
        if_neg (not_not_intro hfws), ← hfw]
      rw [if_pos hmem]
    exact ⟨hp, fun rest => by simp [convertGT, hp]⟩
  · intro row s g h
    exact parseDeviceHdrGT_firmware_classify mk row s g h

/-- C5 witness: firmware 64 (classic) and 0.30 (GT) are rejected with the
errors naming the supported sets, and the conversions abort. -/
theorem C5_firmware_gate_witness :
    parseDeviceHdr mkA devRowBadFw = .error (.firmware SUPPORTED_FIRMWARE 64) ∧
    convert mkA [devRowBadFw, expectedPointHdr]
      = .error (.firmware SUPPORTED_FIRMWARE 64) ∧
    parseDeviceHdrGT mkA devRowGTBadFw
      = .error (.firmwareGT SUPPORTED_FIRMWARE_GT "0.30") ∧
    convertGT mkA [devRowGTBadFw, expectedPointHdrGT]
      = .error (.firmwareGT SUPPORTED_FIRMWARE_GT "0.30") := by
  obtain ⟨ha, hb⟩ := (C5_firmware_gate mkA).1 devRowBadFw 64 (by decide)
    (by decide) (by decide) (by decide) (by decide)
  obtain ⟨hc, hd⟩ := (C5_firmware_gate mkA).2.2.1 devRowGTBadFw "0.30" (by decide)
    (by decide) (by decide) (by decide) (by decide)
  exact ⟨ha, hb [expectedPointHdr], hc, hd [expectedPointHdrGT]⟩

unseal Rat.mul Rat.inv Rat.ofScientific Rat.add Rat.sub in
set_option maxHeartbeats 1000000 in
/-- C4 counterexample: two samples with heart rates 100 and 101.  The
exact average is 201/2, but the classic (Python 2) variant emits 100 —
integer floor division — so the emitted average does not equal
`sum(heartRateBpm)/sampleCount`. -/
theorem C4_averages_counterexample :
    (processRows rowsOddHeart initStats).map (fun r => r.1.map Point.heart)
      = .ok [100, 101] ∧
    (lapOfRows rowsOddHeart).map Lap.avgHeartRateBpm = .ok 100 ∧
    ((100 : ℚ) + 101) / 2 ≠ 100 := by
  refine ⟨by decide, by decide, by norm_num⟩

/-- C4 (amended): the GT (Python 3) variant emits the exact averages
`sum/sampleCount` for heart rate, cadence and power; the classic
(Python 2) variant emits the floor `⌊sum/sampleCount⌋` of each.  In both
variants, a sequence of N samples all reporting heart rate 100 yields an
emitted average of exactly 100. -/
theorem C4_averages (rows : List (List String)) (ps : List Point) (st : Stats)
    (h : processRows rows initStats = .ok (ps, st)) :
    (∀ (startsec : Int) (lap : Lap), addLap startsec ps st = .ok lap →
      lap.avgHeartRateBpm
        = ((Int.fdiv (ps.map Point.heart).sum (ps.length : Int) : ℤ) : ℚ) ∧
      lap.avgCadence
        = ((Int.fdiv (ps.map Point.cadence).sum (ps.length : Int) : ℤ) : ℚ) ∧
      lap.avgWatts
        = ((Int.fdiv (ps.map Point.power).sum (ps.length : Int) : ℤ) : ℚ) ∧
      ((∀ p ∈ ps, p.heart = 100) → lap.avgHeartRateBpm = 100)) ∧
    (∀ (startsec : Int) (lap : Lap), addLapGT startsec ps st = .ok lap →
      lap.avgHeartRateBpm
        = (((ps.map Point.heart).sum : ℤ) : ℚ) / (ps.length : ℚ) ∧
      lap.avgCadence
        = (((ps.map Point.cadence).sum : ℤ) : ℚ) / (ps.length : ℚ) ∧
      lap.avgWatts
        = (((ps.map Point.power).sum : ℤ) : ℚ) / (ps.length : ℚ) ∧
      ((∀ p ∈ ps, p.heart = 100) → lap.avgHeartRateBpm = 100)) := by
  obtain ⟨-, i2, i3, i4, -, -, -, -, -, -⟩ := processRows_spec rows initStats ps st h
  have hH : st.ttlHeart = (ps.map Point.heart).sum := by rw [i2]; simp [initStats]
  have hC : st.ttlCadence = (ps.map Point.cadence).sum := by rw [i3]; simp [initStats]
  have hW : st.ttlWatts = (ps.map Point.power).sum := by rw [i4]; simp [initStats]
  constructor
  · intro startsec lap hlap
    cases hl : ps.getLast? with
    | none => rw [addLap, hl] at hlap; exact absurd hlap (by simp)
    | some lastP =>
      rw [addLap_eq startsec ps st lastP hl] at hlap
      obtain rfl := Except.ok.inj hlap
      obtain ⟨hne, -⟩ := getLast?_eq_some_get hl
      have hlen : (ps.length : Int) ≠ 0 :=
        Int.natCast_ne_zero.mpr (List.length_pos.mpr hne).ne'
      refine ⟨by rw [hH], by rw [hC], by rw [hW], ?_⟩
      intro hall
      have hsum : (ps.map Point.heart).sum = (ps.length : Int) * 100 := by
        rw [List.sum_eq_card_nsmul (ps.map Point.heart) 100
          (fun x hx => by obtain ⟨p, hp, rfl⟩ := List.mem_map.mp hx; exact hall p hp)]
        simp [nsmul_eq_mul]
      show ((Int.fdiv st.ttlHeart (ps.length : Int) : ℤ) : ℚ) = 100
      rw [hH, hsum, Int.mul_fdiv_cancel_left _ hlen]
      norm_num
  · intro startsec lap hlap
    cases hl : ps.getLast? with
    | none => rw [addLapGT, hl] at hlap; exact absurd hlap (by simp)
    | some lastP =>
      rw [addLapGT_eq startsec ps st lastP hl] at hlap
      obtain rfl := Except.ok.inj hlap
      obtain ⟨hne, -⟩ := getLast?_eq_some_get hl
      have hlenQ : (ps.length : ℚ) ≠ 0 :=
        Nat.cast_ne_zero.mpr (List.length_pos.mpr hne).ne'
      refine ⟨by rw [hH], by rw [hC], by rw [hW], ?_⟩
      intro hall
      have hsum : (ps.map Point.heart).sum = (ps.length : Int) * 100 := by
        rw [List.sum_eq_card_nsmul (ps.map Point.heart) 100
          (fun x hx => by obtain ⟨p, hp, rfl⟩ := List.mem_map.mp hx; exact hall p hp)]
        simp [nsmul_eq_mul]
      show ((st.ttlHeart : ℤ) : ℚ) / (ps.length : ℚ) = 100
      rw [hH, hsum]
      push_cast
      field_simp

unseal Rat.mul Rat.inv Rat.ofScientific Rat.add Rat.sub in
set_option maxHeartbeats 1000000 in
/-- C4 witness: on the single all-100 sample of `rowA`, the classic lap
average equals the floored quotient and equals exactly 100. -/
theorem C4_averages_witness :
    lapA.avgHeartRateBpm
      = ((Int.fdiv (psA.map Point.heart).sum (psA.length : Int) : ℤ) : ℚ) ∧
    lapA.avgHeartRateBpm = 100 := by
  have h := (C4_averages [rowA] psA stA (by decide)).1 0 lapA (by decide)
  exact ⟨h.1, h.2.2.2 (by decide)⟩

/-- C9: for every non-empty sample sequence of nonnegative values (the
data model's ranges), each emitted maximum — `MaximumSpeed` (m/s),
`MaximumHeartRateBpm`, `MaxBikeCadence`, `MaxWatts` — is the true maximum
of the corresponding per-sample values, and a single-sample sequence has
average = maximum for every aggregated field. -/
theorem C9_maxima_true (rows : List (List String)) (ps : List Point)
    (st : Stats) (h : processRows rows initStats = .ok (ps, st))
    (hnn : ∀ p ∈ ps, 0 ≤ p.speed ∧ 0 ≤ p.heart ∧ 0 ≤ p.cadence ∧ 0 ≤ p.power) :
    ∀ (startsec : Int) (lap : Lap), addLap startsec ps st = .ok lap →
      (lap.maxHeartRateBpm ∈ ps.map Point.heart ∧
        ∀ x ∈ ps.map Point.heart, x ≤ lap.maxHeartRateBpm) ∧
      (lap.maxBikeCadence ∈ ps.map Point.cadence ∧
        ∀ x ∈ ps.map Point.cadence, x ≤ lap.maxBikeCadence) ∧
      (lap.maxWatts ∈ ps.map Point.power ∧
        ∀ x ∈ ps.map Point.power, x ≤ lap.maxWatts) ∧
      ((∃ p ∈ ps, lap.maximumSpeed = metersPerSec p.speed) ∧
        ∀ p ∈ ps, metersPerSec p.speed ≤ lap.maximumSpeed) ∧
      (ps.length = 1 →
        lap.avgHeartRateBpm = (lap.maxHeartRateBpm : ℚ) ∧
        lap.avgCadence = (lap.maxBikeCadence : ℚ) ∧
        lap.avgWatts = (lap.maxWatts : ℚ) ∧
        lap.avgSpeed = lap.maximumSpeed) := by
  obtain ⟨i1, i2, i3, i4, i5, i6, i7, i8, -, -⟩ :=
    processRows_spec rows initStats ps st h
  have j5 : st.maxSpeed = (ps.map Point.speed).foldl max 0 := i5
  have j6 : st.maxHeart = (ps.map Point.heart).foldl max 0 := i6
  have j7 : st.maxCadence = (ps.map Point.cadence).foldl max 0 := i7
  have j8 : st.maxWatts = (ps.map Point.power).foldl max 0 := i8
  intro startsec lap hlap
  cases hl : ps.getLast? with
  | none => rw [addLap, hl] at hlap; exact absurd hlap (by simp)
  | some lastP =>
    rw [addLap_eq startsec ps st lastP hl] at hlap
    obtain rfl := Except.ok.inj hlap
    obtain ⟨hne, -⟩ := getLast?_eq_some_get hl
    have h36 : (0 : ℚ) < 3.6 := by norm_num
    have hH := foldl_max_is_max (ps.map Point.heart)
      (by simpa [List.map_eq_nil] using hne)
      (fun x hx => by obtain ⟨p, hp, rfl⟩ := List.mem_map.mp hx; exact (hnn p hp).2.1)
    have hCd := foldl_max_is_max (ps.map Point.cadence)
      (by simpa [List.map_eq_nil] using hne)
      (fun x hx => by obtain ⟨p, hp, rfl⟩ := List.mem_map.mp hx; exact (hnn p hp).2.2.1)
    have hW := foldl_max_is_max (ps.map Point.power)
      (by simpa [List.map_eq_nil] using hne)
      (fun x hx => by obtain ⟨p, hp, rfl⟩ := List.mem_map.mp hx; exact (hnn p hp).2.2.2)
    have hS := foldl_max_is_max (ps.map Point.speed)
      (by simpa [List.map_eq_nil] using hne)
      (fun x hx => by obtain ⟨p, hp, rfl⟩ := List.mem_map.mp hx; exact (hnn p hp).1)
    refine ⟨?_, ?_, ?_, ?_, ?_⟩
    · show st.maxHeart ∈ ps.map Point.heart ∧
        ∀ x ∈ ps.map Point.heart, x ≤ st.maxHeart
      rw [j6]; exact hH
    · show st.maxCadence ∈ ps.map Point.cadence ∧
        ∀ x ∈ ps.map Point.cadence, x ≤ st.maxCadence
      rw [j7]; exact hCd
    · show st.maxWatts ∈ ps.map Point.power ∧
        ∀ x ∈ ps.map Point.power, x ≤ st.maxWatts
      rw [j8]; exact hW
    · constructor
      · show ∃ p ∈ ps, metersPerSec st.maxSpeed = metersPerSec p.speed
        obtain ⟨p, hp, hps⟩ := List.mem_map.mp hS.1
        refine ⟨p, hp, ?_⟩
        rw [j5, ← hps]
      · intro p hp
        show metersPerSec p.speed ≤ metersPerSec st.maxSpeed
        unfold metersPerSec
        refine (div_le_div_iff_of_pos_right h36).mpr ?_
        rw [j5]
        exact hS.2 p.speed (List.mem_map.mpr ⟨p, hp, rfl⟩)
    · intro hlen1
      obtain ⟨p0, rfl⟩ := List.length_eq_one.mp hlen1
      have hp0 := hnn p0 (List.mem_singleton.mpr rfl)
      have e1 : st.ttlSpeed = p0.speed := by rw [i1]; simp [initStats]
      have e2 : st.ttlHeart = p0.heart := by rw [i2]; simp [initStats]
      have e3 : st.ttlCadence = p0.cadence := by rw [i3]; simp [initStats]
      have e4 : st.ttlWatts = p0.power := by rw [i4]; simp [initStats]
      have e5 : st.maxSpeed = p0.speed := by
        rw [i5]; simp [initStats]; exact hp0.1
      have e6 : st.maxHeart = p0.heart := by
        rw [i6]; simp [initStats]; exact hp0.2.1
      have e7 : st.maxCadence = p0.cadence := by
        rw [i7]; simp [initStats]; exact hp0.2.2.1
      have e8 : st.maxWatts = p0.power := by
        rw [i8]; simp [initStats]; exact hp0.2.2.2
      refine ⟨?_, ?_, ?_, ?_⟩
      · show ((Int.fdiv st.ttlHeart (([p0] : List Point).length : Int) : ℤ) : ℚ)
          = (st.maxHeart : ℚ)
        simp [e2, e6, Int.fdiv_one]
      · show ((Int.fdiv st.ttlCadence (([p0] : List Point).length : Int) : ℤ) : ℚ)
          = (st.maxCadence : ℚ)
        simp [e3, e7, Int.fdiv_one]
      · show ((Int.fdiv st.ttlWatts (([p0] : List Point).length : Int) : ℤ) : ℚ)
          = (st.maxWatts : ℚ)
        simp [e4, e8, Int.fdiv_one]
      · show metersPerSec (st.ttlSpeed / (([p0] : List Point).length : ℚ))
          = metersPerSec st.maxSpeed
        simp [e1, e5]

unseal Rat.mul Rat.inv Rat.ofScientific Rat.add Rat.sub in
set_option maxHeartbeats 1000000 in
/-- C9 witness: on the single sample of `rowA` the emitted maximum heart
rate is an attained sample value and the averages equal the maxima. -/
theorem C9_maxima_true_witness :
    lapA.maxHeartRateBpm ∈ psA.map Point.heart ∧
    lapA.avgHeartRateBpm = (lapA.maxHeartRateBpm : ℚ) ∧
    lapA.avgSpeed = lapA.maximumSpeed := by
  have h := C9_maxima_true [rowA] psA stA (by decide) (by decide) 0 lapA (by decide)
  obtain ⟨ha, hb, hc, hd⟩ := h.2.2.2.2 (by decide)
  exact ⟨h.1.1, ha, hd⟩

end Lemond
